import Mathlib

/-!
Shallow embedding of `src/pyats/contrib/plugins/topoup_plugin/topoup.py`
(the TopologyUp pre-job plugin) and proofs about its behaviour.

Modelling conventions:
* Wall-clock time is an integer number of seconds.  `time()` samples are
  threaded explicitly: `pre_job` receives the clock value `now` at its entry
  (line 74, `start_time = time()`), and each parallel task starts with the
  same clock value (the tasks are launched immediately by `pcall`).
  A successful `sleep(interval)` advances the task-local clock by the
  slept amount; a connection attempt itself takes zero model time.
* Values coming from `argparse` with `action='store'` and no `type=` are
  either the Python default (a number) or a command-line string; `PyVal`
  captures exactly these two shapes, for the timeout and the interval
  alike.  `float(x)`, the subtraction `timeout - time_difference` and
  `sleep(interval)` on such values are fallible (`pyFloat`, `pySub`,
  `pySleep`), mirroring Python's ValueError / TypeError.
* `device.connect()` is framework-provided and opaque; a device is modelled
  by the outcome of its successive connect calls, `attempt : ℕ → Except Unit
  Unit` (`.ok` = connect returned, `.error` = connect raised; the bare
  `except:` in the source catches every exception class alike).
* The unbounded `while` loop is given explicit fuel; `DCResult.fuelOut` is a
  modelling artifact meaning the fuel ran out, never a behaviour of the
  code.  Every result records how many connect attempts were made.
-/

/-- Python exceptions that the embedded fragments can raise. -/
inductive PyErr where
  | typeError
  | valueError
  deriving DecidableEq, Repr

/-- A value held by an `argparse` destination with `action='store'` and no
`type=`: either the (numeric) Python default or the raw command-line string. -/
inductive PyVal where
  | num (q : ℤ)
  | str (s : String)
  deriving DecidableEq, Repr

/-- Decimal reading of a character list: `some` of the value when every
character is a digit, `none` otherwise. -/
def pyParseNat (cs : List Char) : Option ℕ :=
  cs.foldl
    (fun acc c =>
      match acc with
      | none => none
      | some n => if c.isDigit then some (n * 10 + (c.toNat - 48)) else none)
    (some 0)

/-- Python `float(x)` on a `PyVal`: numbers coerce to themselves, strings are
parsed (modelled for the decimal-integer strings that occur here; the empty
string and non-numeric strings raise ValueError). -/
def pyFloat : PyVal → Except PyErr ℤ
  | .num q => .ok q
  | .str s =>
    match s.data with
    | [] => .error .valueError
    | cs =>
      match pyParseNat cs with
      | some n => .ok (n : ℤ)
      | none => .error .valueError

/-- Python `x - r` for a `PyVal` `x` and a number `r`: subtracting a number
from a string raises TypeError. -/
def pySub : PyVal → ℤ → Except PyErr ℤ
  | .num q, r => .ok (q - r)
  | .str _, _ => .error .typeError

/-- Python `sleep(x)` on a `PyVal`: returns the number of seconds slept;
sleeping on a string raises TypeError. -/
def pySleep : PyVal → Except PyErr ℤ
  | .num q => .ok q
  | .str _ => .error .typeError

/-- Outcome of one task running `device_connect`: a boolean return at some
clock value, an uncaught Python exception at some clock value, or fuel
exhaustion (modelling artifact).  Each records the number of connect
attempts performed. -/
inductive DCResult where
  | ok (b : Bool) (t : ℤ) (attempts : ℕ)
  | err (e : PyErr) (t : ℤ) (attempts : ℕ)
  | fuelOut (attempts : ℕ)
  deriving DecidableEq, Repr

/-- Number of connect attempts a task performed. -/
def DCResult.attempts : DCResult → ℕ
  | .ok _ _ k => k
  | .err _ _ k => k
  | .fuelOut k => k

/-- The `while (time() - start_time) < float(timeout)` loop of
`device_connect` (topoup.py lines 113-136).  `t` is the current task-local
clock, `n` the number of attempts so far, and the first `ℕ` argument is
fuel.  One iteration: evaluate the guard (`pyFloat` may raise), call
`device.connect()` (`attempt n`); on success log and return `True`; on an
exception, the handler formats the log message — computing
`timeout - time_difference`, which may raise TypeError out of the function —
then calls `sleep(interval)` — which may itself raise TypeError out of the
function when the interval is a string — and retries.  Leaving the loop
returns `False`. -/
def device_connect_loop (attempt : ℕ → Except Unit Unit) (start : ℤ)
    (timeout : PyVal) (interval : PyVal) (time_difference : ℤ) :
    ℕ → ℤ → ℕ → DCResult
  | 0, _, n => .fuelOut n
  | fuel + 1, t, n =>
    match pyFloat timeout with
    | .error e => .err e t n
    | .ok tmo =>
      if t - start < tmo then
        match attempt n with
        | .ok _ => .ok true t (n + 1)
        | .error _ =>
          match pySub timeout time_difference with
          | .error e => .err e t (n + 1)
          | .ok _ =>
            match pySleep interval with
            | .error e => .err e t (n + 1)
            | .ok i =>
              device_connect_loop attempt start timeout interval
                time_difference fuel (t + i) (n + 1)
      else .ok false t n

/-- `device_connect(device, start_time, timeout, interval)` (topoup.py lines
93-136): computes `time_difference = time() - start_time` once at entry
(`t0` is the task's clock at entry) and runs the retry loop. -/
def device_connect (attempt : ℕ → Except Unit Unit) (start : ℤ)
    (timeout : PyVal) (interval : PyVal) (t0 : ℤ) (fuel : ℕ) : DCResult :=
  device_connect_loop attempt start timeout interval (t0 - start) fuel t0 0

/-- The three plugin arguments as stored by `configure_parser` (topoup.py
lines 34-54): `all_devices_up` defaults to `None` and is stored raw
(`action='store'`, no type), so it is `none` or some command-line string;
the timeout and the interval default to the numbers 120 and 10 but are raw
strings when supplied on the command line. -/
structure Args where
  all_devices_up : Option String
  connection_check_timeout : PyVal
  connection_check_interval : PyVal
  deriving DecidableEq, Repr

/-- The parser defaults: `default=None`, `default=120`, `default=10`. -/
def defaultArgs : Args :=
  { all_devices_up := none
    connection_check_timeout := .num 120
    connection_check_interval := .num 10 }

/-- Python truthiness of the stored `all_devices_up` value, as used by
`if ignore_devices_up:` (topoup.py line 67): `None` and the empty string are
falsy, every other string is truthy. -/
def truthy : Option String → Bool
  | none => false
  | some s => if s = "" then false else true

/-- Errors observable from one `pre_job` call: an IndexError from
`pcall_output[1]`, the aggregate `Exception("Not all the testbed devices are
up and ready")`, an exception re-raised from a parallel task by `pcall`, or
fuel exhaustion (modelling artifact). -/
inductive PreJobErr where
  | indexError
  | notAllUp
  | taskError (e : PyErr)
  | outOfFuel
  deriving DecidableEq, Repr

/-- Python list indexing `l[i]`: raises IndexError when out of bounds. -/
def pyIndex (l : List Bool) (i : ℕ) : Except PreJobErr Bool :=
  match l.get? i with
  | some b => .ok b
  | none => .error .indexError

/-- The aggregate gate `if not (pcall_output[0] and pcall_output[1]): raise
Exception(...)` (topoup.py lines 86-88), with Python's short-circuit `and`:
`pcall_output[0]` is always evaluated; `pcall_output[1]` only when the first
is truthy. -/
def aggCheck (out : List Bool) : Except PreJobErr Unit := do
  let b0 ← pyIndex out 0
  if b0 then
    let b1 ← pyIndex out 1
    if b1 then pure () else .error .notAllUp
  else .error .notAllUp

/-- A task result as seen by the caller of `pcall`: the boolean return
value, or the task's uncaught exception re-raised in the parent. -/
def dcToBool : DCResult → Except PreJobErr Bool
  | .ok b _ _ => .ok b
  | .err e _ _ => .error (.taskError e)
  | .fuelOut _ => .error .outOfFuel

/-- The `pcall(device_connect, ckwargs = {start_time, timeout, interval},
ikwargs = [...])` fan-out (topoup.py lines 82-84): every device task is
invoked with the same `start_time` (the single `time()` sample taken at
line 74, here the `now` argument) and the same timeout and interval; each
task's local clock also begins at `now`. -/
def preJobResults (args : Args) (now : ℤ)
    (devs : List (ℕ → Except Unit Unit)) (fuel : ℕ) : List DCResult :=
  devs.map fun a =>
    device_connect a now args.connection_check_timeout
      args.connection_check_interval now fuel

/-- Total number of connect attempts performed across all tasks. -/
def totalAttempts (rs : List DCResult) : ℕ :=
  (rs.map DCResult.attempts).sum

/-- Collect the parallel results and run the aggregate gate: `pcall`
re-raises any task exception before the boolean list is formed. -/
def pcallAgg (rs : List DCResult) : Except PreJobErr Unit := do
  let pcall_output ← rs.mapM dcToBool
  aggCheck pcall_output

/-- `TopologyUpPlugin.pre_job` (topoup.py lines 59-90): if the stored
`all_devices_up` value is truthy the plugin logs and returns at once;
otherwise it samples `start_time = time()` once (`now`), fans out
`device_connect` over all devices with that shared start, and applies the
aggregate gate.  The second component counts connect attempts performed
(0 on the disabled path, where `pcall` is never invoked). -/
def pre_job (args : Args) (now : ℤ) (devs : List (ℕ → Except Unit Unit))
    (fuel : ℕ) : Except PreJobErr Unit × ℕ :=
  if truthy args.all_devices_up then (.ok (), 0)
  else
    (pcallAgg (preJobResults args now devs fuel),
     totalAttempts (preJobResults args now devs fuel))

/-- A device whose `connect` always succeeds. -/
def devAlwaysOk : ℕ → Except Unit Unit := fun _ => .ok ()

/-- A device whose `connect` always raises. -/
def devAlwaysFail : ℕ → Except Unit Unit := fun _ => .error ()

/-- One failing iteration of the retry loop (numeric timeout and interval):
the guard holds, the attempt raises, the handler's log subtraction and the
sleep both succeed, and the loop re-enters after sleeping `interval`, with
the attempt counter bumped. -/
lemma device_connect_loop_fail_step (a : ℕ → Except Unit Unit) (start T I td t : ℤ)
    (n fuel : ℕ) (hg : t - start < T) (hf : a n = .error ()) :
    device_connect_loop a start (.num T) (.num I) td (fuel + 1) t n
      = device_connect_loop a start (.num T) (.num I) td fuel (t + I) (n + 1) := by
  simp [device_connect_loop, pyFloat, pySub, pySleep, hg, hf]

/-- C2: If the disabled flag is set, the pre-job gate returns success
immediately for every device state: it performs zero connection attempts
(the parallel fan-out is never invoked) and raises no error. -/
theorem pre_job_disabled_skips_all_checks (args : Args) (now : ℤ)
    (devs : List (ℕ → Except Unit Unit)) (fuel : ℕ)
    (h : truthy args.all_devices_up = true) :
    pre_job args now devs fuel = (.ok (), 0) := by
  simp [pre_job, h]

/-- C2 witness: with `-ignore-all-devices-up True` and a device that can
never connect, `pre_job` still succeeds with zero attempts. -/
theorem pre_job_disabled_skips_all_checks_witness :
    truthy (some "True") = true ∧
      pre_job ⟨some "True", .num 120, .num 10⟩ 0 [devAlwaysFail] 13 = (.ok (), 0) :=
  ⟨rfl, pre_job_disabled_skips_all_checks ⟨some "True", .num 120, .num 10⟩ 0
    [devAlwaysFail] 13 rfl⟩

/-- C5: if the elapsed time since the shared start already equals or exceeds
the timeout when the outcome is evaluated, `device_connect` returns `False`
without performing any connection attempt (the guard uses strict `<`). -/
theorem device_connect_deadline_passed_no_attempt (a : ℕ → Except Unit Unit)
    (start T : ℤ) (I : PyVal) (t0 : ℤ) (fuel : ℕ) (h : T ≤ t0 - start) :
    device_connect a start (.num T) I t0 (fuel + 1) = .ok false t0 0 := by
  simp [device_connect, device_connect_loop, pyFloat, not_lt.mpr h]

/-- C5 witness: a device whose connect would succeed is still reported
`False`, with zero attempts, when the task is evaluated at the deadline. -/
theorem device_connect_deadline_passed_no_attempt_witness :
    (120 : ℤ) ≤ 120 - 0 ∧
      device_connect devAlwaysOk 0 (.num 120) (.num 10) 120 4 = .ok false 120 0 :=
  ⟨by decide, device_connect_deadline_passed_no_attempt devAlwaysOk 0 120 (.num 10)
    120 3 (by decide)⟩

/-- C6: a device whose connect succeeds on the first attempt, with the
shared deadline not yet elapsed, yields `True` after exactly one attempt and
without sleeping (the returned clock equals the entry clock). -/
theorem device_connect_first_attempt_success_no_sleep (a : ℕ → Except Unit Unit)
    (start T : ℤ) (I : PyVal) (t0 : ℤ) (fuel : ℕ) (hg : t0 - start < T)
    (h0 : a 0 = .ok ()) :
    device_connect a start (.num T) I t0 (fuel + 1) = .ok true t0 1 := by
  simp [device_connect, device_connect_loop, pyFloat, hg, h0]

/-- C6 witness: an always-succeeding device at clock 0 with timeout 120. -/
theorem device_connect_first_attempt_success_no_sleep_witness :
    (0 : ℤ) - 0 < 120 ∧ devAlwaysOk 0 = .ok () ∧
      device_connect devAlwaysOk 0 (.num 120) (.num 10) 0 5 = .ok true 0 1 :=
  ⟨by decide, rfl, device_connect_first_attempt_success_no_sleep devAlwaysOk 0 120
    (.num 10) 0 4 (by decide) rfl⟩

/-- C9: for a topology of exactly one device the aggregate check evaluates
`pcall_output[1]` on a one-element list, so `pre_job` raises IndexError even
though the single device connected successfully (one attempt was made and
it returned `True`). -/
theorem pre_job_single_device_index_error :
    pre_job defaultArgs 0 [devAlwaysOk] 1 = (.error .indexError, 1) ∧
      preJobResults defaultArgs 0 [devAlwaysOk] 1 = [.ok true 0 1] :=
  ⟨rfl, rfl⟩

/-- C1: evaluating `pre_job` on three devices of which only the third is
down: the logical-AND over all outcomes is false, yet the gate — which only
inspects `pcall_output[0] and pcall_output[1]` — raises nothing and lets the
job proceed (14 attempts were made: 1 + 1 + 12). -/
theorem pre_job_agg_ignores_third_device :
    pre_job defaultArgs 0 [devAlwaysOk, devAlwaysOk, devAlwaysFail] 13
        = (.ok (), 14) ∧
      (preJobResults defaultArgs 0 [devAlwaysOk, devAlwaysOk, devAlwaysFail] 13).mapM
          dcToBool = .ok [true, true, false] ∧
      [true, true, false].all id = false :=
  ⟨rfl, rfl, rfl⟩

/-- C10: when the timeout is the command-line string "120", the loop guard's
`float(timeout)` succeeds, but on the first failed connection attempt (with
the deadline not yet reached) the retry log message computes
`timeout - time_difference` on the string, and the TypeError propagates out
of `device_connect` after exactly one attempt, at the entry clock (no sleep,
no retry). -/
theorem device_connect_string_timeout_type_error (a : ℕ → Except Unit Unit)
    (start : ℤ) (I : PyVal) (fuel : ℕ) (h0 : a 0 = .error ()) :
    pyFloat (.str "120") = .ok 120 ∧
      device_connect a start (.str "120") I start (fuel + 1)
        = .err .typeError start 1 := by
  have hF : pyFloat (.str "120") = .ok 120 := rfl
  refine ⟨hF, ?_⟩
  have hg : start - start < (120 : ℤ) := by omega
  simp [device_connect, device_connect_loop, hF, pySub, hg, h0]

/-- C10 witness: the failing device at clock 0 with interval 10. -/
theorem device_connect_string_timeout_type_error_witness :
    devAlwaysFail 0 = .error () ∧
      pyFloat (.str "120") = .ok 120 ∧
      device_connect devAlwaysFail 0 (.str "120") (.num 10) 0 4
        = .err .typeError 0 1 :=
  ⟨rfl, device_connect_string_timeout_type_error devAlwaysFail 0 (.num 10) 3 rfl⟩

/-- C4 counterexample: a failed connection attempt is caught but is not
always followed by a sleep and a retry, and the outcome is not always a
boolean.  With the timeout held as the command-line string "120" the
TypeError from the handler's log line escapes `device_connect` at the entry
clock after one attempt; with the default numeric timeout but the interval
held as the command-line string "10", the log line succeeds and
`sleep(interval)` raises the TypeError that escapes instead. -/
theorem device_connect_failed_attempt_without_retry :
    device_connect devAlwaysFail 0 (.str "120") (.num 10) 0 2
        = .err .typeError 0 1 ∧
      device_connect devAlwaysFail 0 (.num 120) (.str "10") 0 2
        = .err .typeError 0 1 :=
  ⟨rfl, rfl⟩

/-- C4 amended: when both the timeout and the interval are numeric, every
failed connection attempt inside the guard is caught and followed by a
sleep of `interval` and a retry (the loop re-enters at clock `t + I` with
the attempt counter bumped), and no error of any kind ever escapes
`device_connect_loop`. -/
theorem device_connect_numeric_params_catch_sleep_retry
    (a : ℕ → Except Unit Unit) (start T I td t t' : ℤ) (n n' fuel g : ℕ)
    (e : PyErr) (t2 : ℤ) (k : ℕ) (hg : t - start < T) (hf : a n = .error ()) :
    device_connect_loop a start (.num T) (.num I) td (fuel + 1) t n
        = device_connect_loop a start (.num T) (.num I) td fuel (t + I) (n + 1) ∧
      device_connect_loop a start (.num T) (.num I) td g t' n' ≠ .err e t2 k := by
  refine ⟨device_connect_loop_fail_step a start T I td t n fuel hg hf, ?_⟩
  induction g generalizing t' n' with
  | zero => simp [device_connect_loop]
  | succ g ih =>
    by_cases hg' : t' - start < T
    · cases hc : a n' with
      | ok u => simp [device_connect_loop, pyFloat, hg', hc]
      | error u =>
        have hu : a n' = .error () := by cases u; exact hc
        rw [device_connect_loop_fail_step a start T I td t' n' g hg' hu]
        exact ih (t' + I) (n' + 1)
    · simp [device_connect_loop, pyFloat, hg']

/-- C4 amended witness: one failed attempt at clock 0 with timeout 120 and
interval 10 re-enters the loop at clock 10, attempt 1; and no run of the
loop produces an escaped error. -/
theorem device_connect_numeric_params_catch_sleep_retry_witness :
    (0 : ℤ) - 0 < 120 ∧ devAlwaysFail 0 = .error () ∧
      (device_connect_loop devAlwaysFail 0 (.num 120) (.num 10) 0 2 0 0
          = device_connect_loop devAlwaysFail 0 (.num 120) (.num 10) 0 1 10 1 ∧
        device_connect_loop devAlwaysFail 0 (.num 120) (.num 10) 0 3 0 0
          ≠ .err .typeError 0 1) :=
  ⟨by decide, rfl,
    device_connect_numeric_params_catch_sleep_retry devAlwaysFail 0 120 10 0 0 0
      0 0 1 3 .typeError 0 1 (by decide) rfl⟩

/-- C8 counterexample: the stored flag value is the raw command-line string,
so supplying the value `False` — which is not the boolean `True` — still
disables the gate: with two permanently-down devices the check is skipped
with zero attempts, while the same topology with the flag unset aborts with
the aggregate error. -/
theorem pre_job_disabled_by_string_false :
    pre_job ⟨some "False", .num 120, .num 10⟩ 0 [devAlwaysFail, devAlwaysFail] 13
        = (.ok (), 0) ∧
      (pre_job ⟨none, .num 120, .num 10⟩ 0 [devAlwaysFail, devAlwaysFail] 13).1
        = .error .notAllUp :=
  ⟨rfl, rfl⟩

/-- C8 amended: the flag is stored raw with default `None`; the gate is
disabled when and only when the stored value is truthy under Python
truthiness, i.e. any value other than `None` and the empty string — the
string "False" included — disables it. -/
theorem pre_job_disabled_iff_flag_truthy (args : Args) (now : ℤ)
    (devs : List (ℕ → Except Unit Unit)) (fuel : ℕ) :
    defaultArgs.all_devices_up = none ∧
      (truthy args.all_devices_up = false ↔
        args.all_devices_up = none ∨ args.all_devices_up = some "") ∧
      pre_job args now devs fuel
        = if truthy args.all_devices_up then (.ok (), 0)
          else (pcallAgg (preJobResults args now devs fuel),
                totalAttempts (preJobResults args now devs fuel)) := by
  refine ⟨rfl, ?_, ?_⟩
  · cases h : args.all_devices_up with
    | none => simp [truthy]
    | some s =>
      by_cases hs : s = "" <;> simp [truthy, hs]
  · by_cases h : truthy args.all_devices_up <;> simp [pre_job, h]

/-- C7: the timeout clock is sampled once per `pre_job` invocation (the
`now` argument, taken before the fan-out) and that same value is passed as
`start_time` to every per-device task: device `i`'s result is
`device_connect` applied at the shared `now`, never a per-device resample. -/
theorem pre_job_single_shared_start_time (args : Args) (now : ℤ)
    (devs : List (ℕ → Except Unit Unit)) (fuel : ℕ) (i : ℕ)
    (h : truthy args.all_devices_up = false) :
    pre_job args now devs fuel
        = (pcallAgg (preJobResults args now devs fuel),
           totalAttempts (preJobResults args now devs fuel)) ∧
      (preJobResults args now devs fuel).get? i
        = (devs.get? i).map fun a =>
            device_connect a now args.connection_check_timeout
              args.connection_check_interval now fuel := by
  constructor
  · simp [pre_job, h]
  · simp [preJobResults, List.get?_eq_getElem?, List.getElem?_map]

/-- C7 witness: the default arguments with a single device. -/
theorem pre_job_single_shared_start_time_witness :
    truthy defaultArgs.all_devices_up = false ∧
      (pre_job defaultArgs 0 [devAlwaysOk] 1
          = (pcallAgg (preJobResults defaultArgs 0 [devAlwaysOk] 1),
             totalAttempts (preJobResults defaultArgs 0 [devAlwaysOk] 1)) ∧
        (preJobResults defaultArgs 0 [devAlwaysOk] 1).get? 0
          = ([devAlwaysOk].get? 0).map fun a =>
              device_connect a 0 defaultArgs.connection_check_timeout
                defaultArgs.connection_check_interval 0 1) :=
  ⟨rfl, pre_job_single_shared_start_time defaultArgs 0 [devAlwaysOk] 1 0 rfl⟩

/-- With a device that always fails to connect, the loop exits after some
`k ≤ m` failed attempts provided `m` sleeps of `interval` suffice to reach
the deadline, returning `False` at clock `t + k * interval`. -/
lemma device_connect_loop_always_fail_exits (a : ℕ → Except Unit Unit)
    (ha : ∀ n, a n = .error ()) (start T I td : ℤ) :
    ∀ (m : ℕ) (t : ℤ) (n : ℕ), T ≤ t - start + (m : ℤ) * I →
      ∃ k, k ≤ m ∧
        device_connect_loop a start (.num T) (.num I) td (m + 1) t n
          = .ok false (t + (k : ℤ) * I) (n + k) := by
  intro m
  induction m with
  | zero =>
    intro t n h
    refine ⟨0, le_refl 0, ?_⟩
    have hng : ¬ t - start < T := not_lt.mpr (by simpa using h)
    simp [device_connect_loop, pyFloat, hng]
  | succ m ih =>
    intro t n h
    by_cases hg : t - start < T
    · have h' : T ≤ (t + I) - start + (m : ℤ) * I := by push_cast at h ⊢; linarith
      obtain ⟨k, hk, heq⟩ := ih (t + I) (n + 1) h'
      refine ⟨k + 1, Nat.succ_le_succ hk, ?_⟩
      rw [device_connect_loop_fail_step a start T I td t n (m + 1) hg (ha n), heq]
      congr 1
      · push_cast; ring
      · omega
    · refine ⟨0, Nat.zero_le _, ?_⟩
      simp [device_connect_loop, pyFloat, hg]

/-- Whenever the loop returns `False`, the clock at return stays below
`start + timeout + interval`, provided it did at loop entry (the last sleep
starts strictly before the deadline). -/
lemma device_connect_loop_false_time_bound (a : ℕ → Except Unit Unit)
    (start T I td : ℤ) :
    ∀ (fuel : ℕ) (t : ℤ) (n : ℕ), t - start < T + I →
      ∀ (t' : ℤ) (n' : ℕ),
        device_connect_loop a start (.num T) (.num I) td fuel t n
          = .ok false t' n' →
        t' - start < T + I := by
  intro fuel
  induction fuel with
  | zero => intro t n h t' n' heq; simp [device_connect_loop] at heq
  | succ fuel ih =>
    intro t n h t' n' heq
    by_cases hg : t - start < T
    · cases hc : a n with
      | ok u => simp [device_connect_loop, pyFloat, hg, hc] at heq
      | error u =>
        have hu : a n = .error () := by cases u; exact hc
        rw [device_connect_loop_fail_step a start T I td t n fuel hg hu] at heq
        exact ih (t + I) (n + 1) (by linarith) t' n' heq
    · simp [device_connect_loop, pyFloat, hg] at heq
      obtain ⟨ht, -⟩ := heq.2
      omega

/-- C3: for a device whose connect always fails, with interval `I > 0` and
timeout `T ≥ 0`, the retry loop terminates (fuel `T.toNat + 1` suffices)
and reports `False` at a clock no later than `start + T + I`, each failed
attempt advancing the clock by `I`. -/
theorem device_connect_always_fail_bounded_failure (a : ℕ → Except Unit Unit)
    (ha : ∀ n, a n = .error ()) (start T I : ℤ) (hT : 0 ≤ T) (hI : 0 < I) :
    ∃ k t', device_connect a start (.num T) (.num I) start (T.toNat + 1)
        = .ok false t' k ∧ t' ≤ start + T + I := by
  have hm : T ≤ start - start + (T.toNat : ℤ) * I := by
    have h1 : T ≤ (T.toNat : ℤ) := Int.self_le_toNat T
    have h2 : (T.toNat : ℤ) * 1 ≤ (T.toNat : ℤ) * I := by
      apply mul_le_mul_of_nonneg_left (by omega) (by positivity)
    omega
  obtain ⟨k, hk, heq⟩ :=
    device_connect_loop_always_fail_exits a ha start T I (start - start)
      T.toNat start 0 hm
  refine ⟨0 + k, start + (k : ℤ) * I, ?_, ?_⟩
  · exact heq
  · have hb :=
      device_connect_loop_false_time_bound a start T I (start - start)
        (T.toNat + 1) start 0 (by omega) (start + (k : ℤ) * I) (0 + k) heq
    omega

/-- C3 witness: an always-failing device with timeout 3 and interval 2
starting at clock 0 reports `False` no later than clock 5. -/
theorem device_connect_always_fail_bounded_failure_witness :
    (∀ n, devAlwaysFail n = .error ()) ∧ (0 : ℤ) ≤ 3 ∧ (0 : ℤ) < 2 ∧
      ∃ k t', device_connect devAlwaysFail 0 (.num 3) (.num 2) 0 (Int.toNat 3 + 1)
          = .ok false t' k ∧ t' ≤ 0 + 3 + 2 :=
  ⟨fun _ => rfl, by decide, by decide,
    device_connect_always_fail_bounded_failure devAlwaysFail (fun _ => rfl) 0 3 2
      (by decide) (by decide)⟩
